import Mathlib

/-!
Verification of the car-dealership data model (`dealership/models.py`).

The Django models and their methods are shallowly embedded as pure Lean
definitions: records for the model rows, `Except String` for operations
that can raise (`ValueError` / `ValidationError`), an explicit `Store`
of rows for the ORM table state, and an explicit `today : Int` parameter
wherever the source consults `datetime.date.today()`.  Monetary amounts
passed to the price setters are modelled as rationals; Python's
`int(x)` conversion (truncation toward zero) is `py_int`.
-/

namespace MSBDealership

/-- `CarMakeOption`: list of options for car maker. -/
structure CarMakeOption where
  company_name : String
deriving DecidableEq, Repr

/-- `CarColorOption`: list of options for car color. -/
structure CarColorOption where
  color_name : String
deriving DecidableEq, Repr

/-- `CarModelOption`: list of options for car models; belongs to a make. -/
structure CarModelOption where
  company : CarMakeOption
  model_name : String
deriving DecidableEq, Repr

/-- `Dealership` row: tracks each dealership instance (`owner` elided;
it is an opaque reference never read by the modelled operations). -/
structure Dealership where
  name : String
  tag_line : Option String
  year_established : Int
deriving DecidableEq, Repr

/-- `Car` row.  Foreign keys to the vocabulary tables are embedded as the
referenced rows themselves; `dealership` is the owning dealership's id.
`sold_date` is a date modelled as an integer day number, `none` meaning
the car has not been sold. -/
structure Car where
  make : CarMakeOption
  model : CarModelOption
  year : Int
  color : CarColorOption
  dealership : Nat
  mileage : Int
  list_price_cents : Int
  sold_price_cents : Option Int
  sold_date : Option Int
deriving DecidableEq, Repr

/-- Python's `int()` applied to a number: truncation toward zero. -/
def py_int (q : ℚ) : Int := if 0 ≤ q then ⌊q⌋ else ⌈q⌉

/-- `is_not_negative(value)`: `return value >= 0`. -/
def is_not_negative (value : Int) : Bool := value ≥ 0

/-- `year_validator(value)`: raises `ValidationError` with the permitted
range unless `earliest_year <= value <= latest_year`, where
`earliest_year = 1908` and `latest_year = current_year + 1`.  The current
year is an explicit parameter. -/
def year_validator (current_year : Int) (value : Int) : Except String Unit :=
  let earliest_year : Int := 1908
  let years_out : Int := 1
  let latest_year : Int := current_year + years_out
  if earliest_year ≤ value ∧ value ≤ latest_year then
    Except.ok ()
  else
    Except.error s!"Invalid car year. Must be between {earliest_year} and {latest_year}."

/-- `Car.is_sold`: `bool(self.sold_date)` — a date object is truthy,
`None` is falsy. -/
def Car.is_sold (c : Car) : Bool := c.sold_date.isSome

/-- `Car.sold_price` getter: `if self.sold_price_cents: return
self.sold_price_cents / 100 else: return None`.  Python truthiness makes
both `None` and `0` take the `else` branch. -/
def Car.sold_price (c : Car) : Option ℚ :=
  match c.sold_price_cents with
  | some cents => if cents = 0 then none else some ((cents : ℚ) / 100)
  | none => none

/-- `Car.sold_price` setter: if `price >= 0`, store `int(price * 100)`
as `sold_price_cents` and save; otherwise raise
`ValueError("Price should not be negative.")`. -/
def Car.set_sold_price (c : Car) (price : ℚ) : Except String Car :=
  if price ≥ 0 then
    Except.ok { c with sold_price_cents := some (py_int (price * 100)) }
  else
    Except.error "Price should not be negative."

/-- `Car.list_price` getter: `self.list_price_cents / 100`. -/
def Car.list_price (c : Car) : ℚ := (c.list_price_cents : ℚ) / 100

/-- `Car.list_price` setter: if `price >= 0`, store `int(price * 100)`
as `list_price_cents` and save; otherwise raise
`ValueError("Price should not be negative.")`. -/
def Car.set_list_price (c : Car) (price : ℚ) : Except String Car :=
  if price ≥ 0 then
    Except.ok { c with list_price_cents := py_int (price * 100) }
  else
    Except.error "Price should not be negative."

/-- `Car.sell_car(sale_price)`: if `sale_price >= 0`, assign
`self.sold_price = sale_price` (the setter, which itself saves), then set
`sold_date` to today and save again; otherwise raise.  This returns the
final state. -/
def Car.sell_car (c : Car) (today : Int) (sale_price : ℚ) : Except String Car :=
  if sale_price ≥ 0 then
    match c.set_sold_price sale_price with
    | Except.ok c1 => Except.ok { c1 with sold_date := some today }
    | Except.error e => Except.error e
  else
    Except.error "Price should not be negative."

/-- The sequence of row states persisted by the `save()` calls executed
during `sell_car`: the `sold_price` setter saves once — before
`sold_date` has been assigned — and `sell_car` saves again afterwards. -/
def Car.sell_car_saves (c : Car) (today : Int) (sale_price : ℚ) :
    Except String (List Car) :=
  if sale_price ≥ 0 then
    match c.set_sold_price sale_price with
    | Except.ok c1 => Except.ok [c1, { c1 with sold_date := some today }]
    | Except.error e => Except.error e
  else
    Except.error "Price should not be negative."

/-- Modelled from the spec: the framework's application of the attached
field validators on every create/update of a `Car` row is not part of
`src/` (only the validator functions and their attachment to `mileage`,
`list_price_cents` and `sold_price_cents` are).  Per the spec, a failing
validator fails with a domain error before persistence, so a write whose
mileage, list price or sold price fails `is_not_negative` is rejected. -/
def validate_car_write (c : Car) : Except String Car :=
  if is_not_negative c.mileage && is_not_negative c.list_price_cents &&
      c.sold_price_cents.all is_not_negative then
    Except.ok c
  else
    Except.error "domain error: negative value must not be persisted"

/-- The ORM table state: dealership rows keyed by id, and car rows. -/
structure Store where
  dealerships : List (Nat × Dealership)
  cars : List Car
deriving Repr

/-- The reverse relation `self.cars`: cars whose `dealership` foreign key
points at the given dealership id. -/
def Store.cars_of (s : Store) (did : Nat) : List Car :=
  s.cars.filter (fun c => c.dealership == did)

/-- The annotation `Count(Case(When(cars__sold_date__isnull=True,
then=1)))`: for a dealership, the number of its related cars whose
`sold_date` is null. -/
def Store.num_cars_on_lot (s : Store) (did : Nat) : Nat :=
  (s.cars_of did).countP (fun c => c.sold_date.isNone)

/-- `Dealership.objects.annotate(num_cars=cars_on_lot)
.filter(year_established__gt=1980, num_cars__gte=3)`. -/
def Store.old_dealers (s : Store) : List (Nat × Dealership) :=
  s.dealerships.filter (fun dd =>
    decide (1980 < dd.2.year_established) && decide (3 ≤ s.num_cars_on_lot dd.1))

/-- `Dealership.find_red_fords_under_30000`: filter the dealership's own
cars on make `"Ford"`, color `"Red"`, `mileage < 30000` and null
`sold_date`, then `order_by('-list_price_cents')` (descending; modelled
by a stable sort). -/
def Store.find_red_fords_under_30000 (s : Store) (did : Nat) : List Car :=
  ((s.cars_of did).filter (fun c =>
      c.make.company_name == "Ford" && c.color.color_name == "Red" &&
      decide (c.mileage < 30000) && c.sold_date.isNone)).mergeSort
    (fun a b => decide (b.list_price_cents ≤ a.list_price_cents))

/-- `car1` from `populate_data`: Ford Escape, 2007, Black, 100005 miles,
list price 400000 cents, unsold. -/
def car1 : Car :=
  { make := ⟨"Ford"⟩
    model := ⟨⟨"Ford"⟩, "Escape"⟩
    year := 2007
    color := ⟨"Black"⟩
    dealership := 0
    mileage := 100005
    list_price_cents := 400000
    sold_price_cents := none
    sold_date := none }

/-- `car2` from `populate_data`: Subaru Forrester, 2015, Grey, 30001
miles, list price 1458700 cents, sold at 1458805 cents 400 days ago
(here: day number -400). -/
def car2 : Car :=
  { make := ⟨"Subaru"⟩
    model := ⟨⟨"Subaru"⟩, "Forrester"⟩
    year := 2015
    color := ⟨"Grey"⟩
    dealership := 0
    mileage := 30001
    list_price_cents := 1458700
    sold_price_cents := some 1458805
    sold_date := some (-400) }

/-- A car whose sale was recorded with `sold_price_cents = 0`. -/
def car_sold_for_zero : Car :=
  { car1 with sold_price_cents := some 0, sold_date := some 0 }

/-! ## Theorems -/

/-- C2 counterexample: a car with a recorded `sold_price_cents` of `0`
is reported as having no sold price by the getter, contradicting the
claim that a recorded `0` is returned as `0 / 100`. -/
theorem sold_price_zero_counterexample :
    car_sold_for_zero.sold_price_cents = some 0 ∧
      car_sold_for_zero.sold_price = none ∧
      car_sold_for_zero.sold_price ≠ some ((0 : ℚ) / 100) := by
  refine ⟨rfl, rfl, ?_⟩
  simp [car_sold_for_zero, Car.sold_price, car1]

/-- C2 (amended): the `sold_price` getter returns `none` exactly when
`sold_price_cents` is null or zero (Python truthiness), and returns the
recorded cents divided by 100 for every recorded nonzero value. -/
theorem sold_price_spec (c : Car) :
    (c.sold_price = none ↔
        (c.sold_price_cents = none ∨ c.sold_price_cents = some 0)) ∧
    (∀ cents : Int, c.sold_price_cents = some cents → cents ≠ 0 →
      c.sold_price = some ((cents : ℚ) / 100)) := by
  constructor
  · unfold Car.sold_price
    match h : c.sold_price_cents with
    | none => simp
    | some cents =>
      by_cases hz : cents = 0 <;> simp [hz]
  · intro cents hrec hz
    unfold Car.sold_price
    rw [hrec]
    simp [hz]

/-- C2 witness: the amended theorem applied to the seeded sold Subaru. -/
theorem sold_price_spec_witness :
    car2.sold_price = some ((1458805 : ℚ) / 100) :=
  (sold_price_spec car2).2 1458805 rfl (by norm_num)

/-- C4: the non-negativity validator fails exactly on negative values,
and a create/update whose mileage, list price or sold price is negative
fails with a domain error, so the negative value is not persisted. -/
theorem is_not_negative_spec (v : Int) (c : Car) :
    (is_not_negative v = false ↔ v < 0) ∧
    ((c.mileage < 0 ∨ c.list_price_cents < 0 ∨
        (∃ p, c.sold_price_cents = some p ∧ p < 0)) →
      ∃ e, validate_car_write c = Except.error e) := by
  constructor
  · simp [is_not_negative]
  · intro hbad
    refine ⟨"domain error: negative value must not be persisted", ?_⟩
    unfold validate_car_write
    rw [if_neg]
    intro hall
    simp only [Bool.and_eq_true] at hall
    obtain ⟨⟨hm, hl⟩, hs⟩ := hall
    simp only [is_not_negative, decide_eq_true_eq] at hm hl
    rcases hbad with h | h | ⟨p, hp, hpneg⟩
    · omega
    · omega
    · rw [hp] at hs
      simp only [Option.all_some, is_not_negative, decide_eq_true_eq] at hs
      omega

/-- C4 witness: a car write with negative mileage is rejected. -/
theorem is_not_negative_spec_witness :
    (is_not_negative (-5) = false ↔ (-5 : Int) < 0) ∧
      ∃ e, validate_car_write { car1 with mileage := -1 } = Except.error e :=
  ⟨(is_not_negative_spec (-5) { car1 with mileage := -1 }).1,
    (is_not_negative_spec (-5) { car1 with mileage := -1 }).2
      (Or.inl (by norm_num [car1]))⟩

/-- Helper: the state a caller holds after an operation, which is the old
state when the operation raised. -/
def apply_or_keep (c : Car) (r : Except String Car) : Car :=
  match r with
  | Except.ok c1 => c1
  | Except.error _ => c

/-- C6: for a negative amount, each of `set_list_price`, `set_sold_price`
and `sell_car` raises the negative-price domain error, and the previously
stored values are unchanged after the failed call. -/
theorem negative_price_rejected (c : Car) (today : Int) (amount : ℚ)
    (h : amount < 0) :
    c.set_list_price amount = Except.error "Price should not be negative." ∧
    c.set_sold_price amount = Except.error "Price should not be negative." ∧
    c.sell_car today amount = Except.error "Price should not be negative." ∧
    apply_or_keep c (c.set_list_price amount) = c ∧
    apply_or_keep c (c.set_sold_price amount) = c ∧
    apply_or_keep c (c.sell_car today amount) = c := by
  have hn : ¬ amount ≥ 0 := not_le.mpr h
  simp [Car.set_list_price, Car.set_sold_price, Car.sell_car, apply_or_keep, hn]

/-- C6 witness: the theorem at `car1` with amount `-1`. -/
theorem negative_price_rejected_witness :
    (-1 : ℚ) < 0 ∧
      (car1.set_list_price (-1) =
          Except.error "Price should not be negative." ∧
        car1.set_sold_price (-1) =
          Except.error "Price should not be negative." ∧
        car1.sell_car 0 (-1) =
          Except.error "Price should not be negative." ∧
        apply_or_keep car1 (car1.set_list_price (-1)) = car1 ∧
        apply_or_keep car1 (car1.set_sold_price (-1)) = car1 ∧
        apply_or_keep car1 (car1.sell_car 0 (-1)) = car1) :=
  ⟨by norm_num, negative_price_rejected car1 0 (-1) (by norm_num)⟩

/-- C10: for a non-negative amount, `set_list_price` changes only
`list_price_cents` and `set_sold_price` changes only
`sold_price_cents`; every other field is unchanged. -/
theorem price_setters_frame (c : Car) (amount : ℚ) (h : 0 ≤ amount) :
    (∃ c1, c.set_list_price amount = Except.ok c1 ∧
      c1.make = c.make ∧ c1.model = c.model ∧ c1.year = c.year ∧
      c1.color = c.color ∧ c1.dealership = c.dealership ∧
      c1.mileage = c.mileage ∧ c1.sold_price_cents = c.sold_price_cents ∧
      c1.sold_date = c.sold_date) ∧
    (∃ c2, c.set_sold_price amount = Except.ok c2 ∧
      c2.make = c.make ∧ c2.model = c.model ∧ c2.year = c.year ∧
      c2.color = c.color ∧ c2.dealership = c.dealership ∧
      c2.mileage = c.mileage ∧ c2.list_price_cents = c.list_price_cents ∧
      c2.sold_date = c.sold_date) := by
  have hge : amount ≥ 0 := h
  refine ⟨⟨{ c with list_price_cents := py_int (amount * 100) }, ?_⟩,
    ⟨{ c with sold_price_cents := some (py_int (amount * 100)) }, ?_⟩⟩ <;>
    simp [Car.set_list_price, Car.set_sold_price, hge]

/-- C10 witness: the theorem at `car1` with amount `7`. -/
theorem price_setters_frame_witness :
    (0 : ℚ) ≤ 7 ∧
      ((∃ c1, car1.set_list_price 7 = Except.ok c1 ∧
        c1.make = car1.make ∧ c1.model = car1.model ∧ c1.year = car1.year ∧
        c1.color = car1.color ∧ c1.dealership = car1.dealership ∧
        c1.mileage = car1.mileage ∧
        c1.sold_price_cents = car1.sold_price_cents ∧
        c1.sold_date = car1.sold_date) ∧
      (∃ c2, car1.set_sold_price 7 = Except.ok c2 ∧
        c2.make = car1.make ∧ c2.model = car1.model ∧ c2.year = car1.year ∧
        c2.color = car1.color ∧ c2.dealership = car1.dealership ∧
        c2.mileage = car1.mileage ∧
        c2.list_price_cents = car1.list_price_cents ∧
        c2.sold_date = car1.sold_date)) :=
  ⟨by norm_num, price_setters_frame car1 7 (by norm_num)⟩

/-- C1: a dealership row is in the `old_dealers` query result exactly
when its `year_established` is strictly greater than 1980 and the number
of its cars whose `sold_date` is null (cars still on the lot, counted by
the predicate, not all related cars) is at least 3. -/
theorem old_dealers_spec (s : Store) (dd : Nat × Dealership) :
    dd ∈ s.old_dealers ↔
      dd ∈ s.dealerships ∧ 1980 < dd.2.year_established ∧
        3 ≤ (s.cars.filter (fun c => c.dealership == dd.1)).countP
              (fun c => c.sold_date.isNone) := by
  unfold Store.old_dealers Store.num_cars_on_lot Store.cars_of
  rw [List.mem_filter]
  simp [and_assoc]

/-- C5: for a non-negative amount, `set_list_price` stores
`⌊amount * 100⌋` as `list_price_cents`, and `list_price` then reads back
`amount` rounded down to the nearest cent; in particular an amount of
`4000` reads back as `4000`. -/
theorem set_list_price_round_trip (c : Car) (amount : ℚ) (h : 0 ≤ amount) :
    ∃ c1, c.set_list_price amount = Except.ok c1 ∧
      c1.list_price_cents = ⌊amount * 100⌋ ∧
      c1.list_price = (⌊amount * 100⌋ : ℚ) / 100 := by
  have hge : amount ≥ 0 := h
  have h100 : (0 : ℚ) ≤ amount * 100 := by positivity
  have hpy : py_int (amount * 100) = ⌊amount * 100⌋ := by
    simp [py_int, h100]
  refine ⟨{ c with list_price_cents := py_int (amount * 100) }, ?_, ?_, ?_⟩
  · simp [Car.set_list_price, hge]
  · simpa using hpy
  · simp [Car.list_price, hpy]

/-- C5 witness: `set_list_price 4000` then `list_price` gives `4000`. -/
theorem set_list_price_round_trip_witness :
    (0 : ℚ) ≤ 4000 ∧
      ∃ c1, car1.set_list_price 4000 = Except.ok c1 ∧
        c1.list_price_cents = 400000 ∧ c1.list_price = 4000 := by
  refine ⟨by norm_num, ?_⟩
  obtain ⟨c1, h1, h2, h3⟩ := set_list_price_round_trip car1 4000 (by norm_num)
  have hfl : ⌊(4000 : ℚ) * 100⌋ = 400000 := by norm_num
  refine ⟨c1, h1, by rw [h2, hfl], by rw [h3, hfl]; norm_num⟩

/-- C7: selling the previously unsold seeded Ford Escape at `15444.45`
yields a state where `is_sold` is true, `sold_price` reads back
`15444.45`, and `sold_date` is the current date. -/
theorem sell_car_concrete (today : Int) :
    ∃ c1, car1.sell_car today (15444.45 : ℚ) = Except.ok c1 ∧
      c1.is_sold = true ∧ c1.sold_price = some (15444.45 : ℚ) ∧
      c1.sold_date = some today := by
  have hq : (15444.45 : ℚ) ≥ 0 := by norm_num
  have hmul : (15444.45 : ℚ) * 100 = 1544445 := by norm_num
  have hpy : py_int ((15444.45 : ℚ) * 100) = 1544445 := by
    rw [py_int, hmul]
    norm_num
  refine ⟨{ car1 with sold_price_cents := some 1544445, sold_date := some today }, ?_, rfl, ?_, rfl⟩
  · simp only [Car.sell_car, Car.set_sold_price, if_pos hq, hpy]
  · simp only [Car.sold_price]
    norm_num

/-- C8: a year fails the validator — with the error message carrying the
permitted range — exactly when it lies outside
`[1908, current_year + 1]`; the boundary values `1908` and
`current_year + 1` are accepted while `1907` and `current_year + 2` are
rejected. -/
theorem year_validator_spec (current_year v : Int) (h : 1907 ≤ current_year) :
    ((∃ e, year_validator current_year v = Except.error e) ↔
        (v < 1908 ∨ current_year + 1 < v)) ∧
    (∀ e, year_validator current_year v = Except.error e →
      e = s!"Invalid car year. Must be between {(1908 : Int)} and {current_year + 1}.") ∧
    year_validator current_year 1908 = Except.ok () ∧
    year_validator current_year (current_year + 1) = Except.ok () ∧
    (∃ e, year_validator current_year 1907 = Except.error e) ∧
    (∃ e, year_validator current_year (current_year + 2) = Except.error e) := by
  have spec : ∀ w : Int,
      ((∃ e, year_validator current_year w = Except.error e) ↔
        (w < 1908 ∨ current_year + 1 < w)) ∧
      (∀ e, year_validator current_year w = Except.error e →
        e = s!"Invalid car year. Must be between {(1908 : Int)} and {current_year + 1}.") := by
    intro w
    simp only [year_validator]
    by_cases hin : (1908 : Int) ≤ w ∧ w ≤ current_year + 1
    · rw [if_pos hin]
      constructor
      · constructor
        · rintro ⟨e, he⟩
          simp at he
        · intro hor
          exfalso
          omega
      · intro e he
        simp at he
    · rw [if_neg hin]
      constructor
      · constructor
        · intro _
          omega
        · intro _
          exact ⟨_, rfl⟩
      · intro e he
        injection he with h2
        exact h2.symm
  have hok : ∀ w : Int, 1908 ≤ w → w ≤ current_year + 1 →
      year_validator current_year w = Except.ok () := by
    intro w h1 h2
    unfold year_validator
    rw [if_pos ⟨h1, h2⟩]
  refine ⟨(spec v).1, (spec v).2, hok 1908 le_rfl (by omega),
    hok (current_year + 1) (by omega) le_rfl,
    (spec 1907).1.mpr (by omega), (spec (current_year + 2)).1.mpr (by omega)⟩

/-- C8 witness: the theorem at current year 2026 and year 1907. -/
theorem year_validator_spec_witness :
    (1907 : Int) ≤ 2026 ∧
      (((∃ e, year_validator 2026 1907 = Except.error e) ↔
          ((1907 : Int) < 1908 ∨ (2026 : Int) + 1 < 1907)) ∧
      (∀ e, year_validator 2026 1907 = Except.error e →
        e = s!"Invalid car year. Must be between {(1908 : Int)} and {(2026 : Int) + 1}.") ∧
      year_validator 2026 1908 = Except.ok () ∧
      year_validator 2026 ((2026 : Int) + 1) = Except.ok () ∧
      (∃ e, year_validator 2026 1907 = Except.error e) ∧
      (∃ e, year_validator 2026 ((2026 : Int) + 2) = Except.error e)) :=
  ⟨by norm_num, year_validator_spec 2026 1907 (by norm_num)⟩

/-- C3 (code bug evidence): selling the unsold seeded car at price 100
produces, among the row states persisted by the `save()` calls, an
intermediate state whose `sold_price_cents` is set while `sold_date` is
still null — the `sold_price` setter saves before `sell_car` assigns the
date, so a partially applied sale is persisted and observable. -/
theorem sell_car_intermediate_save_state :
    car1.sell_car_saves 0 100 =
      Except.ok [{ car1 with sold_price_cents := some 10000 }, { car1 with sold_price_cents := some 10000, sold_date := some 0 }] ∧
    ({ car1 with sold_price_cents := some 10000 } : Car).sold_price_cents.isSome = true ∧
    ({ car1 with sold_price_cents := some 10000 } : Car).sold_date = none := by
  refine ⟨?_, rfl, rfl⟩
  have hq : (100 : ℚ) ≥ 0 := by norm_num
  have hpy : py_int ((100 : ℚ) * 100) = 10000 := by
    rw [py_int]
    norm_num
  simp only [Car.sell_car_saves, Car.set_sold_price, if_pos hq, hpy]

/-- C9: a car is in `find_red_fords_under_30000` exactly when it is one
of the store's cars belonging to this dealership with make `"Ford"`,
color `"Red"`, mileage strictly below 30000 and null `sold_date`; the
result is ordered by `list_price_cents` descending and is a permutation
of the filtered rows (no duplication or loss). -/
theorem find_red_fords_spec (s : Store) (did : Nat) :
    (∀ c : Car, c ∈ s.find_red_fords_under_30000 did ↔
      (c ∈ s.cars ∧ c.dealership = did ∧ c.make.company_name = "Ford" ∧
        c.color.color_name = "Red" ∧ c.mileage < 30000 ∧ c.sold_date = none)) ∧
    List.Sorted (fun a b : Car => b.list_price_cents ≤ a.list_price_cents)
      (s.find_red_fords_under_30000 did) ∧
    (s.find_red_fords_under_30000 did).Perm
      ((s.cars_of did).filter (fun c =>
        c.make.company_name == "Ford" && c.color.color_name == "Red" &&
        decide (c.mileage < 30000) && c.sold_date.isNone)) := by
  refine ⟨?_, ?_, ?_⟩
  · intro c
    simp only [Store.find_red_fords_under_30000, List.mem_mergeSort,
      Store.cars_of, List.mem_filter, Bool.and_eq_true, beq_iff_eq,
      decide_eq_true_eq, Option.isNone_iff_eq_none, and_assoc]
  · unfold Store.find_red_fords_under_30000
    show List.Pairwise
      (fun a b : Car => b.list_price_cents ≤ a.list_price_cents) _
    refine List.Pairwise.imp ?_ (List.sorted_mergeSort ?_ ?_ _)
    · intro a b h
      exact of_decide_eq_true h
    · intro a b c h1 h2
      simp only [decide_eq_true_eq] at h1 h2 ⊢
      omega
    · intro a b
      simp only [Bool.or_eq_true, decide_eq_true_eq]
      omega
  · exact List.mergeSort_perm _ _

end MSBDealership
